import Mathlib

/-!
Verification development for the `awsm-game` physics sandbox
(`src/lib.rs`).  The orchestration layer — scene construction, camera
panning, rendering and key-input capture — is embedded shallowly.
Machine `f64` values are modelled as exact rationals (every numeric
literal of the source is an exact decimal), engine state (`nphysics2d`
`World`) as explicit lists of bodies and colliders, and the canvas as a
trace of drawing commands.
-/

namespace AwsmGame

/-- A 2-D isometry: translation `(x, y)` plus a rotation angle.
Models `nalgebra::Isometry2<f64>` as used by the source
(`Isometry2::new(Vector2::new(x, y), angle)`). -/
structure Iso where
  x : ℚ
  y : ℚ
  angle : ℚ
deriving DecidableEq

/-- `Isometry2::identity()`. -/
def Iso.identity : Iso := ⟨0, 0, 0⟩

/-- Shapes occurring in the system: the source only ever constructs
`ncollide2d::shape::Cuboid` (via `ShapeHandle::new`), identified by its
half-extents; `nonBox` stands for any other engine shape a collider may
carry (the renderer branches on `shape.as_shape::<Cuboid<_>>()`). -/
inductive Shape where
  | cuboid (radx rady : ℚ)
  | nonBox
deriving DecidableEq

/-- Mass properties (`nphysics2d::math::Inertia2`): linear mass and
angular inertia. -/
structure Inertia where
  mass : ℚ
  angular : ℚ
deriving DecidableEq

/-- Model of the external `nphysics2d::volumetric::Volumetric` impl for
2-D cuboids: mass = density · area (area of a cuboid with half-extents
`(rx, ry)` is `4·rx·ry`), angular inertia = mass · (rx² + ry²)/3.
Non-box shapes never reach `inertia` in the source; they are given zero
mass properties. -/
def Shape.inertia : Shape → ℚ → Inertia
  | .cuboid radx rady, density =>
      let m := density * (4 * radx * rady)
      ⟨m, m * (radx ^ 2 + rady ^ 2) / 3⟩
  | .nonBox, _ => ⟨0, 0⟩

/-- Model of `Volumetric::center_of_mass`: the local-frame origin for a
cuboid (the only shape the source feeds to it). -/
def Shape.centerOfMass : Shape → ℚ × ℚ := fun _ => (0, 0)

/-- `Cuboid::half_extents()`, defined on box shapes only. -/
def Shape.halfExtents : Shape → Option (ℚ × ℚ)
  | .cuboid radx rady => some (radx, rady)
  | .nonBox => none

/-- `nphysics2d::object::BodyHandle`: either the distinguished static
ground body (`BodyHandle::ground()`) or a dynamic rigid body,
identified here by its insertion index. -/
inductive BodyHandle where
  | ground
  | rigid (idx : ℕ)
deriving DecidableEq

/-- `ncollide2d::world::CollisionObjectHandle`, as an insertion index. -/
def CollisionObjectHandle := ℕ
deriving instance DecidableEq for CollisionObjectHandle

/-- `nphysics2d::object::Material` — only `Material::default()` occurs. -/
def Material := Unit
deriving instance DecidableEq for Material

/-- `Material::default()`. -/
def Material.default : Material := ()

/-- A dynamic rigid body as registered by `World::add_rigid_body`:
initial pose, mass properties, local center of mass. -/
structure RigidBody where
  position : Iso
  inertia : Inertia
  com : ℚ × ℚ
deriving DecidableEq

/-- A collider as registered by `World::add_collider(margin, shape,
body, pos, material)`. -/
structure Collider where
  margin : ℚ
  shape : Shape
  body : BodyHandle
  pos : Iso
  material : Material
deriving DecidableEq

/-- The physics world (`nphysics2d::world::World<f64>`): gravity plus
the registered bodies and colliders, in insertion order. -/
structure World where
  gravity : ℚ × ℚ
  bodies : List RigidBody
  colliders : List Collider
deriving DecidableEq

namespace World

/-- `World::new()`: empty world (nphysics defaults to zero gravity). -/
def new : World := ⟨(0, 0), [], []⟩

/-- `World::set_gravity`. -/
def set_gravity (w : World) (g : ℚ × ℚ) : World := { w with gravity := g }

/-- `World::add_rigid_body(transform, inertia, center_of_mass)` →
handle of the freshly appended body. -/
def add_rigid_body (w : World) (transform : Iso) (inertia : Inertia)
    (com : ℚ × ℚ) : World × BodyHandle :=
  ({ w with bodies := w.bodies ++ [⟨transform, inertia, com⟩] },
   BodyHandle.rigid w.bodies.length)

/-- `World::add_collider(margin, shape, body, pos, material)` → handle
of the freshly appended collider. -/
def add_collider (w : World) (margin : ℚ) (shape : Shape)
    (body : BodyHandle) (pos : Iso) (material : Material) :
    World × CollisionObjectHandle :=
  ({ w with colliders := w.colliders ++ [⟨margin, shape, body, pos, material⟩] },
   w.colliders.length)

/-- `World::rigid_body(handle)`: `Some` for a live dynamic rigid body,
`None` for the static ground body (it is not a `RigidBody`). -/
def rigid_body (w : World) : BodyHandle → Option RigidBody
  | .ground => none
  | .rigid idx => w.bodies[idx]?

end World

/-- `make_box_shape(radx, rady)`: builds a cuboid shape handle.  No
guard on the extents — the constructor merely stores them. -/
def make_box_shape (radx rady : ℚ) : Shape :=
  Shape.cuboid radx rady

/-- `make_simple_body(world, transform, shape)`: registers a dynamic
rigid body with mass properties taken from the shape at the density
literal `0.1` written inside the function body. -/
def make_simple_body (world : World) (transform : Iso) (shape : Shape) :
    World × BodyHandle :=
  world.add_rigid_body transform (shape.inertia 0.1) shape.centerOfMass

/-- `make_simple_collider(world, shape, body)`: attaches the shape to
the body with margin `0.01`, identity local transform, default
material. -/
def make_simple_collider (world : World) (shape : Shape) (body : BodyHandle) :
    World × CollisionObjectHandle :=
  let margin : ℚ := 0.01
  let transform := Iso.identity
  let material := Material.default
  world.add_collider margin shape body transform material

/-- The `SimpleBox` grouping: shape plus the handles of the body and
collider created together for it. -/
structure SimpleBox where
  shape : Shape
  body : BodyHandle
  collisionObject : CollisionObjectHandle

/-- `SimpleBox::new(world, transform, radx, rady)`: one shape, one
dynamic body, one collider.  Returns the updated world (the Rust
version mutates it in place) together with the grouping. -/
def SimpleBox.new (world : World) (transform : Iso) (radx rady : ℚ) :
    World × SimpleBox :=
  let shape := make_box_shape radx rady
  let wb := make_simple_body world transform shape
  let wc := make_simple_collider wb.1 shape wb.2
  (wc.1, ⟨shape, wb.2, wc.2⟩)

/-- `make_ground(world)`: one static collider attached to
`BodyHandle::ground()`, half-extents `(125 − 0.01, 1 − 0.01)`, placed
at `(0, 9)` with zero rotation, margin `0.01`. -/
def make_ground (world : World) : World × CollisionObjectHandle :=
  let margin : ℚ := 0.01
  let radius_x : ℚ := 125.0 - margin
  let radius_y : ℚ := 1.0 - margin
  let cuboid := Shape.cuboid radius_x radius_y
  let pos : Iso := ⟨0, 9, 0⟩
  world.add_collider margin cuboid BodyHandle.ground pos Material.default

/-- `setup_nphysics_boxes_scene(world)`: sets gravity to `(0, 9.81)`,
installs the ground collider, then creates a 25 × 25 grid of
`SimpleBox`es spaced `(2·radx, 3·rady)` apart with the source's
centering offsets. -/
def setup_nphysics_boxes_scene (world : World) : World :=
  let world := world.set_gravity (0, 9.81)
  let world := (make_ground world).1
  let num : ℕ := 25
  let radx : ℚ := 0.1
  let rady : ℚ := 0.1
  let shiftx : ℚ := radx * 2.0
  let shifty : ℚ := rady * 3.0
  let centerx : ℚ := shiftx * (num : ℚ) / 2.0
  let centery : ℚ := shifty / 2.0
  (List.range num).foldl (fun world i =>
    (List.range num).foldl (fun world j =>
      let x : ℚ := (i : ℚ) * shiftx - centerx
      let y : ℚ := (j : ℚ) * shifty + centery
      let pos : Iso := ⟨x, y, 0⟩
      (SimpleBox.new world pos radx rady).1) world) world

/-- One drawing command on the `CanvasRenderingContext2d` collaborator. -/
inductive CanvasOp where
  | clearRect (x y w h : ℚ)
  | save
  | restore
  | translate (x y : ℚ)
  | scale (x y : ℚ)
  | rotate (angle : ℚ)
  | beginPath
  | rect (x y w h : ℚ)
  | fill
  | debugLog
deriving DecidableEq

/-- The drawing commands `render_nphysics_world` emits for one
collider: resolve the owning body through `World::rigid_body` (skip on
`None`); if the shape is a cuboid, emit the begin-path / save / scale /
translate / rotate / rect / fill / restore sequence of the source,
otherwise emit only the "not painting" debug log. -/
def render_collider (world : World) (collider : Collider) : List CanvasOp :=
  match world.rigid_body collider.body with
  | none => []
  | some body =>
      let x := body.position.x
      let y := body.position.y
      match collider.shape with
      | .cuboid w h =>
          [.beginPath, .save, .scale 100 100,
           .translate (x - w) (y - h), .rotate body.position.angle,
           .rect 0 0 (w * 2) (h * 2), .fill, .restore]
      | .nonBox => [.debugLog]

/-- `render_nphysics_world(world, ctx)`: iterate every collider in the
world and emit its drawing commands. -/
def render_nphysics_world (world : World) : List CanvasOp :=
  world.colliders.flatMap (render_collider world)

/-- The `HtmlCanvasElement` handle: only its pixel dimensions are
observable from the source (`canvas.width()`, `canvas.height()` are
`u32`). -/
structure Canvas where
  width : ℕ
  height : ℕ

/-- `GameConfig`: optional width/height hints (advisory only). -/
structure GameConfig where
  width : Option ℚ
  height : Option ℚ

/-- The `Game` controller: canvas handle, accumulated horizontal camera
offset, owned physics world. -/
structure Game where
  canvas : Canvas
  x_offset : ℚ
  world : World

namespace Game

/-- `Game::new(canvas, config)`: config is parsed and logged but
otherwise unused; offset starts at 0 with a fresh empty world. -/
def new (canvas : Canvas) (_config : GameConfig) : Game :=
  ⟨canvas, 0.0, World.new⟩

/-- `Game::setup_boxes_scene`. -/
def setup_boxes_scene (g : Game) : Game :=
  { g with world := setup_nphysics_boxes_scene g.world }

/-- `Game::pan(x)`: `x_offset += x`, unconditional. -/
def pan (g : Game) (x : ℚ) : Game :=
  { g with x_offset := g.x_offset + x }

/-- `Game::render_scene(&self)`: takes the controller by shared
reference (so it cannot mutate it — the first component returns it
unchanged) and emits: clear the full canvas, save, translate by the
camera offset, the world's drawing commands, restore. -/
def render_scene (g : Game) : Game × List CanvasOp :=
  (g, CanvasOp.clearRect 0 0 (g.canvas.width : ℚ) (g.canvas.height : ℚ) ::
      CanvasOp.save :: CanvasOp.translate g.x_offset 0.0 ::
      (render_nphysics_world g.world ++ [CanvasOp.restore]))

end Game

/-- The host `Document`: the set of event subscriptions attached to it,
as a list of event-type strings. -/
structure Document where
  listeners : List String

/-- The host `Window`: may or may not carry a document. -/
structure Window where
  document : Option Document

/-- The host environment: may or may not have a global window. -/
structure HostEnv where
  window : Option Window

/-- `get_document()`: `web_sys::window().expect(..)` then
`window.document().expect(..)` — each missing layer is a fatal
environment error at the call site, modelled as `Except.error` with the
source's panic message. -/
def get_document (env : HostEnv) : Except String Document :=
  match env.window with
  | none => .error "no global window exists"
  | some w =>
      match w.document with
      | none => .error "should have a document on window"
      | some d => .ok d

/-- `listen_for_keys()`: obtain the document (failing on a missing
window or document), then attach exactly one `keydown` listener to it
and return success. -/
def listen_for_keys (env : HostEnv) : Except String HostEnv :=
  match get_document env with
  | .error e => .error e
  | .ok document =>
      .ok ⟨some ⟨some ⟨document.listeners ++ ["keydown"]⟩⟩⟩

/-! ### Derived definitions

Closed-form descriptions of what the scene builder appends, the
predicates used to count drawing commands, and the spec-side variant of
`createBox` used for refinement comparison. -/

/-- The rigid body `SimpleBox::new` registers at pose `p`. -/
def mkBoxBody (radx rady : ℚ) (p : Iso) : RigidBody :=
  ⟨p, (make_box_shape radx rady).inertia 0.1, (make_box_shape radx rady).centerOfMass⟩

/-- The collider `SimpleBox::new` attaches to the dynamic body with
index `n`. -/
def mkBoxCollider (radx rady : ℚ) (n : ℕ) : Collider :=
  ⟨0.01, make_box_shape radx rady, BodyHandle.rigid n, Iso.identity, Material.default⟩

/-- The colliders a run of `SimpleBox::new` calls appends when the
world already holds `n` bodies: one per pose, with consecutive body
indices starting at `n`. -/
def boxCollidersFrom (radx rady : ℚ) : ℕ → List Iso → List Collider
  | _, [] => []
  | n, _ :: ps => mkBoxCollider radx rady n :: boxCollidersFrom radx rady (n + 1) ps

/-- The pose of grid cell `(i, j)` as the source computes it
(`x = i·shiftx − centerx`, `y = j·shifty + centery`, zero rotation). -/
def gridPos (i j : ℕ) : Iso :=
  ⟨(i : ℚ) * (0.1 * 2.0) - 0.1 * 2.0 * ((25 : ℕ) : ℚ) / 2.0,
   (j : ℚ) * (0.1 * 3.0) + 0.1 * 3.0 / 2.0, 0⟩

/-- All 625 grid cell poses, in the source's iteration order
(outer `i`, inner `j`). -/
def gridPoints : List Iso :=
  (List.range 25).flatMap fun i => (List.range 25).map (gridPos i)

/-- The collider `make_ground` registers. -/
def groundCollider : Collider :=
  ⟨0.01, Shape.cuboid (125.0 - 0.01) (1.0 - 0.01), BodyHandle.ground,
   ⟨0, 9, 0⟩, Material.default⟩

/-- Is this drawing command the canvas clear? -/
def isClear : CanvasOp → Bool
  | .clearRect _ _ _ _ => true
  | _ => false

/-- Is this drawing command a draw call (a path rectangle or a fill)? -/
def isDrawCall : CanvasOp → Bool
  | .rect _ _ _ _ => true
  | .fill => true
  | _ => false

/-- Is this drawing command a path rectangle? -/
def isRectOp : CanvasOp → Bool
  | .rect _ _ _ _ => true
  | _ => false

/-- Is this drawing command a fill? -/
def isFillOp : CanvasOp → Bool
  | .fill => true
  | _ => false

/-- The Shape-Factory operation as the SPEC describes it (§4.1:
`createBox(halfWidth>0, halfHeight>0) → Shape`, failing on a
non-positive extent), written for refinement comparison against the
source's `make_box_shape`, which performs no such check. -/
def createBox_spec (halfWidth halfHeight : ℚ) : Option Shape :=
  if halfWidth ≤ 0 ∨ halfHeight ≤ 0 then none
  else some (Shape.cuboid halfWidth halfHeight)

theorem boxCollidersFrom_length (radx rady : ℚ) (ps : List Iso) (n : ℕ) :
    (boxCollidersFrom radx rady n ps).length = ps.length := by
  induction ps generalizing n with
  | nil => rfl
  | cons p ps ih => simp [boxCollidersFrom, ih]

theorem boxCollidersFrom_map_body (radx rady : ℚ) (ps : List Iso) (n : ℕ) :
    (boxCollidersFrom radx rady n ps).map (fun c => c.body) =
      (List.range' n ps.length).map BodyHandle.rigid := by
  induction ps generalizing n with
  | nil => rfl
  | cons p ps ih => simp [boxCollidersFrom, mkBoxCollider, List.range'_succ, ih]

theorem boxCollidersFrom_countP_ground (radx rady : ℚ) (ps : List Iso) (n : ℕ) :
    (boxCollidersFrom radx rady n ps).countP
      (fun c => c.body = BodyHandle.ground) = 0 := by
  induction ps generalizing n with
  | nil => rfl
  | cons p ps ih => simp [boxCollidersFrom, mkBoxCollider, List.countP_cons, ih]

theorem simpleBox_new_fst (w : World) (p : Iso) (radx rady : ℚ) :
    (SimpleBox.new w p radx rady).1 =
      { w with bodies := w.bodies ++ [mkBoxBody radx rady p],
               colliders := w.colliders ++ [mkBoxCollider radx rady w.bodies.length] } :=
  rfl

theorem foldl_simpleBox (radx rady : ℚ) (ps : List Iso) (w : World) :
    ps.foldl (fun w p => (SimpleBox.new w p radx rady).1) w =
      { w with bodies := w.bodies ++ ps.map (mkBoxBody radx rady),
               colliders := w.colliders ++
                 boxCollidersFrom radx rady w.bodies.length ps } := by
  induction ps generalizing w with
  | nil => simp [boxCollidersFrom]
  | cons p ps ih =>
      rw [List.foldl_cons, simpleBox_new_fst, ih]
      simp [boxCollidersFrom, List.append_assoc]

theorem foldl_flatMap {α β γ : Type} (f : γ → β → γ) (g : α → List β)
    (l : List α) (w : γ) :
    (l.flatMap g).foldl f w = l.foldl (fun w i => (g i).foldl f w) w := by
  induction l generalizing w with
  | nil => rfl
  | cons a l ih => simp [List.flatMap_cons, List.foldl_append, ih]

theorem nested_foldl {γ : Type} (f : γ → Iso → γ) (pos : ℕ → ℕ → Iso)
    (n m : ℕ) (w0 : γ) :
    (List.range n).foldl (fun w i =>
        (List.range m).foldl (fun w j => f w (pos i j)) w) w0 =
      ((List.range n).flatMap fun i => (List.range m).map (pos i)).foldl f w0 := by
  rw [foldl_flatMap]
  simp only [List.foldl_map]

theorem make_ground_fst (w : World) :
    (make_ground w).1 = { w with colliders := w.colliders ++ [groundCollider] } :=
  rfl

-- Closed form of `setup_nphysics_boxes_scene` on an arbitrary world.
set_option maxRecDepth 8000 in
theorem setup_spec (w : World) :
    setup_nphysics_boxes_scene w =
      { gravity := (0, 9.81),
        bodies := w.bodies ++ gridPoints.map (mkBoxBody 0.1 0.1),
        colliders := (w.colliders ++ [groundCollider]) ++
          boxCollidersFrom 0.1 0.1 w.bodies.length gridPoints } := by
  have h1 := nested_foldl (fun w p => (SimpleBox.new w p 0.1 0.1).1) gridPos 25 25
      ((make_ground (w.set_gravity (0, 9.81))).1)
  have h2 : setup_nphysics_boxes_scene w =
      gridPoints.foldl (fun w p => (SimpleBox.new w p 0.1 0.1).1)
        ((make_ground (w.set_gravity (0, 9.81))).1) := Eq.trans rfl h1
  rw [h2, foldl_simpleBox]
  rfl

theorem length_flatMap_range_map {α : Type} (f : ℕ → ℕ → α) (n m : ℕ) :
    ((List.range n).flatMap fun a => (List.range m).map (f a)).length = n * m := by
  induction n with
  | zero => simp
  | succ n ih =>
      rw [List.range_succ, List.flatMap_append]
      simp [ih, Nat.succ_mul]

theorem gridPoints_length : gridPoints.length = 625 :=
  Eq.trans (length_flatMap_range_map gridPos 25 25) (by norm_num)

theorem getElem?_grid {α : Type} (f : ℕ → ℕ → α) (n m i j : ℕ)
    (hi : i < n) (hj : j < m) :
    ((List.range n).flatMap fun a => (List.range m).map (f a))[m * i + j]? =
      some (f i j) := by
  induction n with
  | zero => exact absurd hi (Nat.not_lt_zero i)
  | succ n ih =>
      rw [List.range_succ, List.flatMap_append]
      rcases Nat.lt_or_ge i n with h | h
      · have hlt : m * i + j < ((List.range n).flatMap fun a =>
            (List.range m).map (f a)).length := by
          rw [length_flatMap_range_map]
          have h1 : m * (i + 1) ≤ m * n := Nat.mul_le_mul_left m h
          have h2 : m * (i + 1) = m * i + m := by ring
          have h3 : m * n = n * m := Nat.mul_comm m n
          omega
        rw [List.getElem?_append_left hlt]
        exact ih h
      · have hi' : i = n := by omega
        subst hi'
        have hge : ((List.range i).flatMap fun a =>
            (List.range m).map (f a)).length ≤ m * i + j := by
          rw [length_flatMap_range_map, Nat.mul_comm]
          omega
        rw [List.getElem?_append_right hge, length_flatMap_range_map]
        have hidx : m * i + j - i * m = j := by
          rw [Nat.mul_comm i m]
          omega
        rw [hidx, List.flatMap_cons, List.flatMap_nil, List.append_nil,
          List.getElem?_map, List.getElem?_range hj]
        rfl

theorem gridPoints_getElem (i j : ℕ) (hi : i < 25) (hj : j < 25) :
    gridPoints[25 * i + j]? = some (gridPos i j) :=
  getElem?_grid gridPos 25 25 i j hi hj

theorem setup_new_bodies_length :
    (setup_nphysics_boxes_scene World.new).bodies.length = 625 := by
  rw [setup_spec]
  simp [World.new, gridPoints_length]

theorem setup_new_colliders_length :
    (setup_nphysics_boxes_scene World.new).colliders.length = 626 := by
  rw [setup_spec]
  simp [World.new, boxCollidersFrom_length, gridPoints_length]

theorem setup_new_countP_ground :
    (setup_nphysics_boxes_scene World.new).colliders.countP
      (fun c => c.body = BodyHandle.ground) = 1 := by
  rw [setup_spec]
  simp [World.new, List.countP_append, List.countP_cons,
    boxCollidersFrom_countP_ground, groundCollider]

/-- Claim C1: on a fresh world, a single `setup_boxes_scene` call
creates exactly 25·25 = 625 box entities — one dynamic body and one
collider each, the k-th box collider attached to the k-th dynamic
body — plus exactly one additional collider attached to the static
ground body. -/
theorem C1_box_grid_counts :
    (setup_nphysics_boxes_scene World.new).bodies.length = 625 ∧
    (setup_nphysics_boxes_scene World.new).colliders.length = 626 ∧
    (setup_nphysics_boxes_scene World.new).colliders.map (fun c => c.body) =
      BodyHandle.ground :: (List.range 625).map BodyHandle.rigid ∧
    (setup_nphysics_boxes_scene World.new).colliders.countP
      (fun c => c.body = BodyHandle.ground) = 1 := by
  refine ⟨setup_new_bodies_length, setup_new_colliders_length, ?_,
    setup_new_countP_ground⟩
  rw [setup_spec]
  simp only [World.new, List.nil_append, List.map_append, List.map_cons,
    List.map_nil, boxCollidersFrom_map_body, gridPoints_length, groundCollider,
    List.range_eq_range']
  rfl

/-- Claim C2: the scene builder sets gravity to `(0, 9.81)` and the box
of grid cell `(i, j)` (body index `25·i + j`) starts at position
`(0.2·i − 2.5, 0.3·j + 0.15)` with zero rotation. -/
theorem C2_grid_layout (i j : ℕ) (hi : i < 25) (hj : j < 25) :
    (setup_nphysics_boxes_scene World.new).gravity = (0, 9.81) ∧
    ∃ b : RigidBody,
      (setup_nphysics_boxes_scene World.new).bodies[25 * i + j]? = some b ∧
      b.position = ⟨0.2 * (i : ℚ) - 2.5, 0.3 * (j : ℚ) + 0.15, 0⟩ := by
  rw [setup_spec]
  refine ⟨rfl, mkBoxBody 0.1 0.1 (gridPos i j), ?_, ?_⟩
  · simp [World.new, List.getElem?_map, gridPoints_getElem i j hi hj]
  · show gridPos i j = _
    rw [gridPos, Iso.mk.injEq]
    norm_num
    constructor <;> ring

/-- Witness for C2 at grid cell (3, 4). -/
theorem C2_grid_layout_witness :
    (3 : ℕ) < 25 ∧ (4 : ℕ) < 25 ∧
    ((setup_nphysics_boxes_scene World.new).gravity = (0, 9.81) ∧
     ∃ b : RigidBody,
       (setup_nphysics_boxes_scene World.new).bodies[25 * 3 + 4]? = some b ∧
       b.position = ⟨0.2 * ((3 : ℕ) : ℚ) - 2.5, 0.3 * ((4 : ℕ) : ℚ) + 0.15, 0⟩) :=
  ⟨by norm_num, by norm_num, C2_grid_layout 3 4 (by norm_num) (by norm_num)⟩

/-- Claim C3: `pan(a)` then `pan(b)` equals `pan(a+b)` in either order;
`pan` is total (defined for every rational delta) and changes nothing
but the camera offset, which it shifts by exactly the delta. -/
theorem C3_pan_additive (g : Game) (a b : ℚ) :
    (g.pan a).pan b = g.pan (a + b) ∧
    (g.pan a).pan b = (g.pan b).pan a ∧
    (g.pan a).x_offset = g.x_offset + a ∧
    (g.pan a).world = g.world ∧
    (g.pan a).canvas = g.canvas := by
  cases g
  refine ⟨?_, ?_, rfl, rfl, rfl⟩ <;> simp [Game.pan] <;> ring

/-- Claim C10: a second `setup_boxes_scene` call is not rejected and is
additive — every body and collider of the first call survives as a
prefix, a second ground collider and 625 further boxes are appended,
and gravity is re-set to the same `(0, 9.81)`. -/
theorem C10_setup_twice_additive :
    (setup_nphysics_boxes_scene (setup_nphysics_boxes_scene World.new)).gravity
        = (0, 9.81) ∧
    (setup_nphysics_boxes_scene (setup_nphysics_boxes_scene World.new)).bodies.take
        (setup_nphysics_boxes_scene World.new).bodies.length
        = (setup_nphysics_boxes_scene World.new).bodies ∧
    (setup_nphysics_boxes_scene (setup_nphysics_boxes_scene World.new)).colliders.take
        (setup_nphysics_boxes_scene World.new).colliders.length
        = (setup_nphysics_boxes_scene World.new).colliders ∧
    (setup_nphysics_boxes_scene (setup_nphysics_boxes_scene World.new)).bodies.length
        = (setup_nphysics_boxes_scene World.new).bodies.length + 625 ∧
    (setup_nphysics_boxes_scene (setup_nphysics_boxes_scene World.new)).colliders.length
        = (setup_nphysics_boxes_scene World.new).colliders.length + 626 ∧
    (setup_nphysics_boxes_scene (setup_nphysics_boxes_scene World.new)).colliders.countP
        (fun c => c.body = BodyHandle.ground) = 2 := by
  rw [setup_spec (setup_nphysics_boxes_scene World.new)]
  refine ⟨rfl, List.take_left _ _, ?_, ?_, ?_, ?_⟩
  · rw [List.append_assoc]
    exact List.take_left _ _
  · simp [gridPoints_length]
  · simp [boxCollidersFrom_length, gridPoints_length]
  · simp [List.countP_append, List.countP_cons, boxCollidersFrom_countP_ground,
      groundCollider, setup_new_countP_ground]

theorem render_collider_no_clear (w : World) (c : Collider) :
    (render_collider w c).countP isClear = 0 := by
  rcases hb : w.rigid_body c.body with _ | b
  · simp [render_collider, hb]
  · rcases hs : c.shape with ⟨hw, hh⟩ | _ <;>
      simp [render_collider, hb, hs, isClear]

theorem render_world_no_clear (w : World) :
    (render_nphysics_world w).countP isClear = 0 := by
  rw [render_nphysics_world]
  induction w.colliders with
  | nil => rfl
  | cons c cs ih =>
      rw [List.flatMap_cons, List.countP_append, render_collider_no_clear, ih]

/-- Claim C4: `render_scene` takes the controller by shared reference,
so the world and the camera offset are untouched; its drawing trace is
exactly: one clear of the full canvas first, a save, a single
horizontal translation by the accumulated offset, the world's collider
drawing commands, and a final restore of the saved transform state. -/
theorem C4_render_scene_frame (g : Game) :
    (g.render_scene).1 = g ∧
    (g.render_scene).2 =
      CanvasOp.clearRect 0 0 (g.canvas.width : ℚ) (g.canvas.height : ℚ) ::
      CanvasOp.save :: CanvasOp.translate g.x_offset 0.0 ::
      (render_nphysics_world g.world ++ [CanvasOp.restore]) ∧
    (g.render_scene).2.countP isClear = 1 ∧
    (g.render_scene).2.getLast? = some CanvasOp.restore := by
  refine ⟨rfl, rfl, ?_, ?_⟩
  · simp [Game.render_scene, List.countP_cons, List.countP_append, isClear,
      render_world_no_clear]
  · rw [show (g.render_scene).2 =
        (CanvasOp.clearRect 0 0 (g.canvas.width : ℚ) (g.canvas.height : ℚ) ::
         CanvasOp.save :: CanvasOp.translate g.x_offset 0.0 ::
         render_nphysics_world g.world) ++ [CanvasOp.restore] by
      simp [Game.render_scene]]
    exact List.getLast?_concat _

/-- Claim C5: a collider whose owning body resolves to a dynamic rigid
body and whose shape is a box produces exactly the source's command
sequence — begin-path, save, scale 100×100, translate to
`(x − halfWidth, y − halfHeight)`, rotate by the body's angle, one
rectangle of size `(2·halfWidth) × (2·halfHeight)` at the (rotated,
translated) origin, one fill with the default style, restore. -/
theorem C5_box_collider_draw (w : World) (c : Collider) (b : RigidBody)
    (hw hh : ℚ) (hb : w.rigid_body c.body = some b)
    (hs : c.shape = Shape.cuboid hw hh) :
    render_collider w c =
      [CanvasOp.beginPath, CanvasOp.save, CanvasOp.scale 100 100,
       CanvasOp.translate (b.position.x - hw) (b.position.y - hh),
       CanvasOp.rotate b.position.angle,
       CanvasOp.rect 0 0 (hw * 2) (hh * 2), CanvasOp.fill, CanvasOp.restore] ∧
    (render_collider w c).countP isRectOp = 1 ∧
    (render_collider w c).countP isFillOp = 1 := by
  refine ⟨?_, ?_, ?_⟩ <;>
    simp [render_collider, hb, hs, isRectOp, isFillOp, List.countP_cons]

/-- Witness for C5: one dynamic body at pose (1, 2, angle 3) carrying a
0.1 × 0.2 box collider. -/
theorem C5_box_collider_draw_witness :
    (World.mk (0, 0) [⟨⟨1, 2, 3⟩, ⟨1, 1⟩, (0, 0)⟩]
        [⟨0.01, Shape.cuboid 0.1 0.2, BodyHandle.rigid 0, Iso.identity,
          Material.default⟩]).rigid_body
      (Collider.mk 0.01 (Shape.cuboid 0.1 0.2) (BodyHandle.rigid 0) Iso.identity
        Material.default).body = some ⟨⟨1, 2, 3⟩, ⟨1, 1⟩, (0, 0)⟩ ∧
    render_collider
      (World.mk (0, 0) [⟨⟨1, 2, 3⟩, ⟨1, 1⟩, (0, 0)⟩]
        [⟨0.01, Shape.cuboid 0.1 0.2, BodyHandle.rigid 0, Iso.identity,
          Material.default⟩])
      (Collider.mk 0.01 (Shape.cuboid 0.1 0.2) (BodyHandle.rigid 0) Iso.identity
        Material.default) =
      [CanvasOp.beginPath, CanvasOp.save, CanvasOp.scale 100 100,
       CanvasOp.translate (1 - 0.1) (2 - 0.2), CanvasOp.rotate 3,
       CanvasOp.rect 0 0 (0.1 * 2) (0.2 * 2), CanvasOp.fill, CanvasOp.restore] :=
  ⟨rfl,
   (C5_box_collider_draw
      (World.mk (0, 0) [⟨⟨1, 2, 3⟩, ⟨1, 1⟩, (0, 0)⟩]
        [⟨0.01, Shape.cuboid 0.1 0.2, BodyHandle.rigid 0, Iso.identity,
          Material.default⟩])
      (Collider.mk 0.01 (Shape.cuboid 0.1 0.2) (BodyHandle.rigid 0) Iso.identity
        Material.default)
      ⟨⟨1, 2, 3⟩, ⟨1, 1⟩, (0, 0)⟩ 0.1 0.2 rfl rfl).1⟩

/-- Claim C8: rendering a world with zero colliders performs exactly
one clear and zero draw calls; a collider whose shape is not a box
contributes zero draw calls; a collider whose owning body does not
resolve to a dynamic rigid body contributes no drawing command at
all. -/
theorem C8_render_skips (g : Game) (w : World) (c c' : Collider)
    (hcol : g.world.colliders = [])
    (hshape : c.shape = Shape.nonBox)
    (hbody : w.rigid_body c'.body = none) :
    ((g.render_scene).2.countP isClear = 1 ∧
     (g.render_scene).2.countP isDrawCall = 0) ∧
    (render_collider w c).countP isDrawCall = 0 ∧
    render_collider w c' = [] := by
  refine ⟨⟨?_, ?_⟩, ?_, ?_⟩
  · simp [Game.render_scene, render_nphysics_world, hcol, List.countP_cons,
      isClear]
  · simp [Game.render_scene, render_nphysics_world, hcol, List.countP_cons,
      isDrawCall]
  · rcases hb : w.rigid_body c.body with _ | b <;>
      simp [render_collider, hb, hshape, isDrawCall]
  · simp [render_collider, hbody]

/-- Witness for C8: an empty fresh world; a ground-attached non-box
collider; a collider pointing at a dynamic body handle that no body of
the empty world resolves. -/
theorem C8_render_skips_witness :
    (((Game.mk ⟨640, 480⟩ 0 World.new).render_scene).2.countP isClear = 1 ∧
     ((Game.mk ⟨640, 480⟩ 0 World.new).render_scene).2.countP isDrawCall = 0) ∧
    (render_collider World.new
      (Collider.mk 0.01 Shape.nonBox BodyHandle.ground Iso.identity
        Material.default)).countP isDrawCall = 0 ∧
    render_collider World.new
      (Collider.mk 0.01 (Shape.cuboid 1 1) (BodyHandle.rigid 0) Iso.identity
        Material.default) = [] :=
  C8_render_skips (Game.mk ⟨640, 480⟩ 0 World.new) World.new
    (Collider.mk 0.01 Shape.nonBox BodyHandle.ground Iso.identity
      Material.default)
    (Collider.mk 0.01 (Shape.cuboid 1 1) (BodyHandle.rigid 0) Iso.identity
      Material.default) rfl rfl rfl

/-- Counterexample to C6 as stated: at the non-positive extents
`(−1, −1)` the source's `make_box_shape` does not fail — it returns a
box shape whose half-extents are the inputs — while the spec-side
`createBox` rejects them. -/
theorem C6_counterexample :
    make_box_shape (-1) (-1) = Shape.cuboid (-1) (-1) ∧
    (make_box_shape (-1) (-1)).halfExtents = some (-1, -1) ∧
    createBox_spec (-1) (-1) = none := by
  refine ⟨rfl, rfl, ?_⟩
  simp [createBox_spec]

/-- Claim C6 amended: `make_box_shape` is pure and total — for every
pair of extents, non-positive ones included, it returns a box shape
whose half-extents equal the inputs exactly; nothing is rejected. -/
theorem C6_amended_total (radx rady : ℚ) :
    make_box_shape radx rady = Shape.cuboid radx rady ∧
    (make_box_shape radx rady).halfExtents = some (radx, rady) :=
  ⟨rfl, rfl⟩

/-- Counterexample to C7 as stated: the density is not a parameter of
`make_simple_body` — the registered mass properties always come from
the literal `0.1` written in its body, and at density 1 the same shape
would yield different mass properties. -/
theorem C7_counterexample :
    (make_simple_body World.new ⟨0, 0, 0⟩ (make_box_shape 1 1)).1.bodies =
      [⟨⟨0, 0, 0⟩, (make_box_shape 1 1).inertia 0.1,
        (make_box_shape 1 1).centerOfMass⟩] ∧
    (make_box_shape 1 1).inertia 0.1 ≠ (make_box_shape 1 1).inertia 1 :=
  ⟨rfl, by norm_num [make_box_shape, Shape.inertia, Inertia.mk.injEq]⟩

/-- Claim C7 amended: `make_simple_body` registers one dynamic body
whose mass properties (inertia and center of mass) are derived from the
given shape at the fixed density `0.1`, a constant hardcoded in the
function body rather than a parameter of the operation; nothing else in
the world changes. -/
theorem C7_amended_fixed_density (w : World) (t : Iso) (s : Shape) :
    (make_simple_body w t s).1.bodies =
      w.bodies ++ [⟨t, s.inertia 0.1, s.centerOfMass⟩] ∧
    (make_simple_body w t s).2 = BodyHandle.rigid w.bodies.length ∧
    (make_simple_body w t s).1.colliders = w.colliders ∧
    (make_simple_body w t s).1.gravity = w.gravity :=
  ⟨rfl, rfl, rfl, rfl⟩

/-- Claim C9: with no global window, or a window without document,
`listen_for_keys` fails with the environment error of the missing
layer; with a document present it succeeds after attaching exactly one
`keydown` subscription. -/
theorem C9_listen_for_keys_env (env₁ env₂ env₃ : HostEnv) (w₂ : Window)
    (d₃ : Document) (h₁ : env₁.window = none)
    (h₂ : env₂.window = some w₂) (h₂d : w₂.document = none)
    (h₃ : env₃.window = some ⟨some d₃⟩) :
    listen_for_keys env₁ = .error "no global window exists" ∧
    listen_for_keys env₂ = .error "should have a document on window" ∧
    listen_for_keys env₃ = .ok ⟨some ⟨some ⟨d₃.listeners ++ ["keydown"]⟩⟩⟩ := by
  refine ⟨?_, ?_, ?_⟩ <;> simp [listen_for_keys, get_document, h₁, h₂, h₂d, h₃]

/-- Witness for C9: the three concrete host environments. -/
theorem C9_listen_for_keys_env_witness :
    listen_for_keys ⟨none⟩ = .error "no global window exists" ∧
    listen_for_keys ⟨some ⟨none⟩⟩ = .error "should have a document on window" ∧
    listen_for_keys ⟨some ⟨some ⟨[]⟩⟩⟩ = .ok ⟨some ⟨some ⟨["keydown"]⟩⟩⟩ :=
  C9_listen_for_keys_env ⟨none⟩ ⟨some ⟨none⟩⟩ ⟨some ⟨some ⟨[]⟩⟩⟩ ⟨none⟩ ⟨[]⟩
    rfl rfl rfl rfl

end AwsmGame
